import Mathlib

/-!
Verification of the CliServer program (src/programs/CliServer/CliServer.cpp).

The file shallowly embeds the program's main function: command-line option
handling, transport selection and setup, and the poll-driven event loop.
The Packet parser itself (Packet::processByte) lives in a library outside
this repository's sources; it is modelled from the specification where a
claim needs it, and those definitions are marked as such.
-/

namespace CliServer

/-! ## Packet parser (modelled from the spec) -/

/-- Modelled from the spec: checksum of a frame, `~(id + length + sum(payload)) mod 256`
(spec section 6).  The Packet class implementing this is not part of this repository's
sources.  For a nonnegative sum `s`, `(~s) AND 0xFF` equals `255 - s % 256`. -/
def checksum (pid plen : Nat) (payload : List Nat) : Nat :=
  255 - ((pid + plen + payload.sum) % 256)

/-- Modelled from the spec: the sync marker byte, `0xFF` (spec section 8 example). -/
def SYNC : Nat := 0xFF

/-- Capacity of the packet buffers declared in main (CliServer.cpp lines 156-157). -/
def BUFFER_CAPACITY : Nat := 256

/-- Modelled from the spec: the frame header size (sync1, sync2, id, length). -/
def HEADER_SIZE : Nat := 4

/-- Modelled from the spec: parser states in order
`AwaitSync1 → AwaitSync2 → AwaitId → AwaitLength → AwaitPayload → AwaitChecksum`
(spec section 4.1). -/
inductive ParseState
  | awaitSync1
  | awaitSync2
  | awaitId
  | awaitLength (pid : Nat)
  | awaitPayload (pid plen : Nat) (payload : List Nat) (remaining : Nat)
  | awaitChecksum (pid plen : Nat) (payload : List Nat)
deriving DecidableEq

/-- Modelled from the spec: the verdict returned for each consumed byte
(spec section 4.1: Incomplete, Complete, FramingError(Overflow/BadChecksum)). -/
inductive Verdict
  | incomplete
  | complete (pid : Nat) (payload : List Nat)
  | badChecksum
  | overflow
deriving DecidableEq

/-- Modelled from the spec: the byte-at-a-time parser transition function
(spec section 4.1).  Returns the next state and the verdict for this byte.
Every framing error resets the state to `awaitSync1`. -/
def consumeByte : ParseState → Nat → ParseState × Verdict
  | .awaitSync1, b => (if b = SYNC then .awaitSync2 else .awaitSync1, .incomplete)
  | .awaitSync2, b => (if b = SYNC then .awaitId else .awaitSync1, .incomplete)
  | .awaitId, b => (.awaitLength b, .incomplete)
  | .awaitLength pid, b =>
      if BUFFER_CAPACITY - HEADER_SIZE < b then (.awaitSync1, .overflow)
      else if b ≤ 1 then (.awaitChecksum pid b [], .incomplete)
      else (.awaitPayload pid b [] (b - 1), .incomplete)
  | .awaitPayload pid plen acc rem, b =>
      if rem ≤ 1 then (.awaitChecksum pid plen (acc ++ [b]), .incomplete)
      else (.awaitPayload pid plen (acc ++ [b]) (rem - 1), .incomplete)
  | .awaitChecksum pid plen acc, b =>
      if b = checksum pid plen acc then (.awaitSync1, .complete pid acc)
      else (.awaitSync1, .badChecksum)

/-- Feed a list of bytes to the parser from a given state; the verdict of the
last byte is returned (`incomplete` for the empty list). -/
def feed (s : ParseState) : List Nat → ParseState × Verdict
  | [] => (s, .incomplete)
  | [b] => consumeByte s b
  | b :: rest => feed (consumeByte s b).1 rest

/-- Run the parser on a byte sequence starting from a fresh parser and return the
verdict produced by the final byte. -/
def runParser (bytes : List Nat) : Verdict :=
  (feed ParseState.awaitSync1 bytes).2

/-! ## Event loop (embedded from main, CliServer.cpp lines 84-227) -/

/-- The subset of Packet::Error values main distinguishes: NONE (frame complete),
NOT_DONE (more bytes needed, CliServer.cpp line 211), and framing errors.  The
full enum lives in the Packet library; main only tests against NONE and NOT_DONE. -/
inductive PacketError
  | NONE
  | NOT_DONE
  | CHECKSUM_ERROR
  | TOO_MUCH_DATA
deriving DecidableEq

/-- POLLIN bit, the only event requested in main's pollfd (CliServer.cpp line 191). -/
def POLLIN : Nat := 0x0001

/-- POLLRDHUP bit tested at CliServer.cpp line 201. -/
def POLLRDHUP : Nat := 0x2000

/-- POLLERR bit: reported by poll on a descriptor error without being requested. -/
def POLLERR : Nat := 0x0008

/-- One wake of the event loop as seen from main: either poll returned a negative
value (CliServer.cpp line 194), or poll succeeded with a revents bitmask and, if
the POLLIN branch is reached, bus->processByte() returns the given verdict. -/
inductive WakeInput
  | pollFail
  | wake (revents : Nat) (pb : PacketError)
deriving DecidableEq

/-- Log messages main can emit (CliServer.cpp lines 151-153, 195, 202, 206, 212,
222, 231-238, 179, 183). -/
inductive LogMsg
  | pollFailed
  | remoteDisconnected
  | unexpectedRevent (revents : Nat)
  | processError (e : PacketError)
  | verboseHeader (debug : Bool) (port : String)
  | doneMsg
  | openingSerial
  | serialOpened
  | usageText
deriving DecidableEq

/-- Observable actions of main, in program order: log calls, the unconditional
setDebug(true) calls (lines 163-164), handler registration (lines 171, 178),
transport setup (lines 172, 180), the bus->processByte() and bus->handlePacket()
calls in the loop (lines 210, 218), and an explicit close of the descriptor
(which main never performs). -/
inductive Action
  | logE (m : LogMsg)
  | logI (m : LogMsg)
  | logD (m : LogMsg)
  | printfA (m : LogMsg)
  | setDebugSocketBus (enabled : Bool)
  | setDebugSerialBus (enabled : Bool)
  | addHandlerSocket
  | addHandlerSerial
  | setupSocket (port : String)
  | openSerial (dev : String) (baud : Nat)
  | processByte
  | handlePacket
  | closeFd
deriving DecidableEq

/-- One iteration of the while loop (CliServer.cpp lines 188-219): the actions it
performs and whether it breaks out of the loop. -/
def loopStep : WakeInput → List Action × Bool
  | .pollFail => ([.logE .pollFailed], true)
  | .wake rev pb =>
      if rev = 0 then ([], false)
      else if rev &&& POLLRDHUP ≠ 0 then ([.logI .remoteDisconnected], true)
      else if rev &&& POLLIN = 0 then ([.logE (.unexpectedRevent rev)], false)
      else
        match pb with
        | .NONE => ([.processByte, .handlePacket], false)
        | .NOT_DONE => ([.processByte], false)
        | e => ([.processByte, .logE (.processError e)], false)

/-- Run the while loop over a finite trace of wakes.  Returns the accumulated
actions and whether the loop exited (true) or the trace ran out with the loop
still blocked in poll (false). -/
def runLoop : List WakeInput → List Action × Bool
  | [] => ([], false)
  | w :: ws =>
      if (loopStep w).2 then ((loopStep w).1, true)
      else ((loopStep w).1 ++ (runLoop ws).1, (runLoop ws).2)

/-- Option state produced by the getopt loop: the two global flags and the two
port strings (CliServer.cpp lines 74, 77, 90-91). -/
structure Flags where
  debug : Bool
  verbose : Bool
  portStr : String
  serialPortStr : String
deriving DecidableEq

/-- Outcome of a transport setup call (socketBus.setupServer at line 172, or
serialBus.open at line 180): NONE, or any other IBus::Error. -/
inductive SetupResult
  | ok
  | fail
deriving DecidableEq

/-- Actions of the verbose block at CliServer.cpp lines 151-154. -/
def verboseActs (fl : Flags) : List Action :=
  if fl.verbose then [.logD (.verboseHeader fl.debug fl.portStr)] else []

/-- Actions of the verbose block at CliServer.cpp lines 221-223. -/
def doneActs (fl : Flags) : List Action :=
  if fl.verbose then [.logD .doneMsg] else []

/-- The loop followed by the code after it: when the loop breaks, main logs Done
when verbose and calls exit(0) (CliServer.cpp lines 221-226); when the wake trace
is exhausted the process is still running (`none`). -/
def loopPhase (fl : Flags) (ws : List WakeInput) : List Action × Option Nat :=
  if (runLoop ws).2 then ((runLoop ws).1 ++ doneActs fl, some 0)
  else ((runLoop ws).1, none)

/-- Actions of main between the verbose block and the transport branch:
the verbose log and the two unconditional setDebug(true) calls
(CliServer.cpp lines 151-164). -/
def preActs (fl : Flags) : List Action :=
  verboseActs fl ++ [Action.setDebugSocketBus true, Action.setDebugSerialBus true]

/-- Main from the verbose block onward (CliServer.cpp lines 151-227): setDebug on
both buses, transport selection on serialPortStr being empty (line 170), handler
registration, setup with exit(1) on failure (lines 172-174, 180-182), then the
event loop.  Returns the action trace and the process exit status (`none` while
still running). -/
def runMain (fl : Flags) (setup : SetupResult) (ws : List WakeInput) :
    List Action × Option Nat :=
  if fl.serialPortStr = "" then
    match setup with
    | .fail => (preActs fl ++ [.addHandlerSocket, .setupSocket fl.portStr], some 1)
    | .ok =>
        (preActs fl ++ [.addHandlerSocket, .setupSocket fl.portStr] ++ (loopPhase fl ws).1,
         (loopPhase fl ws).2)
  else
    match setup with
    | .fail =>
        (preActs fl ++ [.addHandlerSerial, .printfA .openingSerial,
                        .openSerial fl.serialPortStr 115200], some 1)
    | .ok =>
        (preActs fl ++ [.addHandlerSerial, .printfA .openingSerial,
                        .openSerial fl.serialPortStr 115200, .printfA .serialOpened]
           ++ (loopPhase fl ws).1,
         (loopPhase fl ws).2)

/-! ## Command-line handling (embedded from main, CliServer.cpp lines 60-149) -/

/-- One row of the g_long_option table (CliServer.cpp lines 60-71): option name,
whether it takes a required argument, whether its flag pointer is null, and its
val character code. -/
structure LongOption where
  name : String
  requiresArg : Bool
  flagIsNull : Bool
  val : Nat
deriving DecidableEq

/-- The g_long_option table: debug/help/port/serial/verbose with val codes
'd', 'h', 'p', 's', 'v' (CliServer.cpp lines 60-71). -/
def gLongOption : List LongOption :=
  [⟨"debug", false, true, 100⟩,
   ⟨"help", false, true, 104⟩,
   ⟨"port", true, true, 112⟩,
   ⟨"serial", true, true, 115⟩,
   ⟨"verbose", false, true, 118⟩]

/-- OPT_FIRST_LONG_OPT = 0x80 (CliServer.cpp line 55). -/
def OPT_FIRST_LONG_OPT : Nat := 0x80

/-- The short-option string computed from g_long_option at CliServer.cpp lines
104-118: for every entry with a null flag pointer and val below
OPT_FIRST_LONG_OPT, append the val character, plus a colon when the option
requires an argument. -/
def computeShortOpts (opts : List LongOption) : String :=
  String.mk (opts.foldr (fun o acc =>
    if o.flagIsNull ∧ o.val < OPT_FIRST_LONG_OPT then
      Char.ofNat o.val :: (if o.requiresArg then ':' :: acc else acc)
    else acc) [])

/-- The optstring literal actually passed to getopt_long at CliServer.cpp
line 122. -/
def passedShortOpts : String := "dhv"

/-- Result of the option-parsing while loop (CliServer.cpp lines 122-149):
either the usage-and-return-1 path taken on getopt returning unknown option or
on OPT_HELP, or the parsed flags. -/
inductive CliResult
  | usageExit1
  | parsed (fl : Flags)
deriving DecidableEq

/-- Whether an argv token is an option (begins with a dash). -/
def isOptToken (a : String) : Bool :=
  match a.data with
  | c :: _ => c = '-'
  | [] => false

/-- The getopt_long parsing loop of main (CliServer.cpp lines 122-149), with
getopt_long itself modelled per its contract at this call site: short options
are recognized from the literal optstring "dhv" passed at line 122, long
options from g_long_option; an option character not in the optstring (such as
-p or -s) makes getopt_long return a question mark, which main answers by
printing usage and returning 1.  Each argv token holds one option; a
non-option token ends the scan.  --port and --serial consume the following
token as their required argument; a trailing --port or --serial with no
following token is a missing required argument, answered like an unknown
option (usage, return 1). -/
def parseOptLoop : List String → Flags → CliResult
  | [], fl => .parsed fl
  | [a], fl =>
      if a = "-d" ∨ a = "--debug" then .parsed { fl with debug := true }
      else if a = "-v" ∨ a = "--verbose" then .parsed { fl with verbose := true }
      else if a = "-h" ∨ a = "--help" then .usageExit1
      else if a = "--port" ∨ a = "--serial" then .usageExit1
      else if isOptToken a then .usageExit1
      else .parsed fl
  | a :: b :: rest, fl =>
      if a = "-d" ∨ a = "--debug" then parseOptLoop (b :: rest) { fl with debug := true }
      else if a = "-v" ∨ a = "--verbose" then parseOptLoop (b :: rest) { fl with verbose := true }
      else if a = "-h" ∨ a = "--help" then .usageExit1
      else if a = "--port" then parseOptLoop rest { fl with portStr := b }
      else if a = "--serial" then parseOptLoop rest { fl with serialPortStr := b }
      else if isOptToken a then .usageExit1
      else .parsed fl

/-- The whole program: parse the options starting from the defaults (portStr =
SocketBus::DEFAULT_PORT_STR supplied by the caller, serialPortStr = "",
CliServer.cpp lines 90-91), return 1 after printing usage on a bad option, and
otherwise run the rest of main. -/
def program (defaultPort : String) (args : List String) (setup : SetupResult)
    (ws : List WakeInput) : List Action × Option Nat :=
  match parseOptLoop args ⟨false, false, defaultPort, ""⟩ with
  | .usageExit1 => ([.logI .usageText], some 1)
  | .parsed fl => runMain fl setup ws

/-! ## Packet buffer identities (embedded from main, CliServer.cpp lines 156-161) -/

/-- Identity of the two packet buffers declared in main: cmdPacketData and
rspPacketData (CliServer.cpp lines 156-157), each wrapped in a Packet
(lines 158-159). -/
inductive PacketBuf
  | cmdPacketData
  | rspPacketData
deriving DecidableEq

/-- The pair of Packet buffers a bus is constructed over. -/
structure BusBuffers where
  inBuf : PacketBuf
  outBuf : PacketBuf
deriving DecidableEq

/-- Buffers passed to the SocketBus constructor: &cmdPacket, &rspPacket
(CliServer.cpp line 160). -/
def socketBusBuffers : BusBuffers := ⟨.cmdPacketData, .rspPacketData⟩

/-- Buffers passed to the LinuxSerialBus constructor: the same &cmdPacket,
&rspPacket (CliServer.cpp line 161). -/
def serialBusBuffers : BusBuffers := ⟨.cmdPacketData, .rspPacketData⟩

/-! ## Logging projection (for the observational claim) -/

/-- Whether an action is purely a logging/printing action. -/
def Action.isLogging : Action → Bool
  | .logE _ => true
  | .logI _ => true
  | .logD _ => true
  | .printfA _ => true
  | _ => false

/-- The non-logging projection of an action trace: control-flow and I/O actions
with all log/print output removed. -/
def nonLog (acts : List Action) : List Action :=
  acts.filter (fun a => !a.isLogging)

/-- Whether an action is one the while loop body can emit (CliServer.cpp lines
188-219): a log call, processByte, or handlePacket. -/
def Action.isLoopAct : Action → Bool
  | .logE _ => true
  | .logI _ => true
  | .processByte => true
  | .handlePacket => true
  | _ => false

/-! ## Helper lemmas -/

theorem loopStep_all_loopActs (w : WakeInput) :
    (loopStep w).1.all Action.isLoopAct = true := by
  cases w with
  | pollFail => rfl
  | wake rev pb =>
      simp only [loopStep]
      split
      · rfl
      · split
        · rfl
        · split
          · rfl
          · cases pb <;> rfl

theorem mem_loopStep_loopAct {w : WakeInput} {a : Action} (h : a ∈ (loopStep w).1) :
    a.isLoopAct = true := by
  have hall := loopStep_all_loopActs w
  rw [List.all_eq_true] at hall
  exact hall a h

theorem mem_runLoop_loopAct {ws : List WakeInput} {a : Action} (h : a ∈ (runLoop ws).1) :
    a.isLoopAct = true := by
  induction ws with
  | nil => simp [runLoop] at h
  | cons w ws ih =>
      simp only [runLoop] at h
      by_cases hw : (loopStep w).2 = true
      · rw [if_pos hw] at h
        exact mem_loopStep_loopAct h
      · rw [if_neg hw] at h
        rcases List.mem_append.mp h with h | h
        · exact mem_loopStep_loopAct h
        · exact ih h

theorem closeFd_not_mem_runLoop (ws : List WakeInput) :
    Action.closeFd ∉ (runLoop ws).1 :=
  fun h => absurd (mem_runLoop_loopAct h) (by decide)

theorem runLoop_nonexit_append (ws : List WakeInput) (w : WakeInput)
    (h : ∀ u ∈ ws, (loopStep u).2 = false) :
    runLoop (ws ++ [w]) = ((runLoop ws).1 ++ (loopStep w).1, (loopStep w).2) := by
  induction ws with
  | nil =>
      show runLoop [w] = _
      simp only [runLoop]
      cases hw : (loopStep w).2
      · simp [hw]
      · simp [hw]
  | cons u us ih =>
      have hu : (loopStep u).2 = false := h u (List.mem_cons_self u us)
      have ih2 := ih fun v hv => h v (List.mem_cons_of_mem u hv)
      simp only [List.cons_append, runLoop, hu, Bool.false_eq_true, if_false]
      simp [ih2, List.append_assoc]

theorem runMain_snd (fl : Flags) (setup : SetupResult) (ws : List WakeInput) :
    (runMain fl setup ws).2 =
      match setup with
      | .fail => some 1
      | .ok => if (runLoop ws).2 then some 0 else none := by
  have hlp : (loopPhase fl ws).2 = if (runLoop ws).2 then some 0 else none := by
    unfold loopPhase
    split <;> rfl
  cases setup <;> unfold runMain <;> split <;> simp [hlp]

theorem nonLog_append (l1 l2 : List Action) :
    nonLog (l1 ++ l2) = nonLog l1 ++ nonLog l2 := by
  simp [nonLog]

theorem nonLog_preActs (fl : Flags) :
    nonLog (preActs fl)
      = [Action.setDebugSocketBus true, Action.setDebugSerialBus true] := by
  unfold preActs verboseActs
  by_cases hv : fl.verbose <;> simp [hv, nonLog, Action.isLogging]

theorem nonLog_loopPhase (fl : Flags) (ws : List WakeInput) :
    nonLog (loopPhase fl ws).1 = nonLog (runLoop ws).1 := by
  unfold loopPhase doneActs
  split
  · by_cases hv : fl.verbose <;> simp [hv, nonLog, Action.isLogging]
  · rfl

theorem nonLog_runMain (fl : Flags) (setup : SetupResult) (ws : List WakeInput) :
    nonLog (runMain fl setup ws).1 =
      [Action.setDebugSocketBus true, Action.setDebugSerialBus true] ++
      (if fl.serialPortStr = "" then
        Action.addHandlerSocket :: Action.setupSocket fl.portStr ::
          (match setup with | .fail => [] | .ok => nonLog (runLoop ws).1)
       else
        Action.addHandlerSerial :: Action.openSerial fl.serialPortStr 115200 ::
          (match setup with | .fail => [] | .ok => nonLog (runLoop ws).1)) := by
  have hlp := nonLog_loopPhase fl ws
  cases setup <;> unfold runMain <;> split <;>
    simp only [nonLog_append, nonLog_preActs, hlp] <;> rfl

theorem mem_runMain_nonlog_cases {a : Action} (ha : a.isLogging = false)
    (fl : Flags) (setup : SetupResult) (ws : List WakeInput)
    (h : a ∈ (runMain fl setup ws).1) :
    a = Action.setDebugSocketBus true ∨ a = Action.setDebugSerialBus true
    ∨ (fl.serialPortStr = "" ∧ (a = Action.addHandlerSocket ∨ a = Action.setupSocket fl.portStr))
    ∨ (fl.serialPortStr ≠ ""
        ∧ (a = Action.addHandlerSerial ∨ a = Action.openSerial fl.serialPortStr 115200))
    ∨ a ∈ (runLoop ws).1 := by
  have h2 : a ∈ nonLog (runMain fl setup ws).1 :=
    List.mem_filter.mpr ⟨h, by simp [ha]⟩
  rw [nonLog_runMain] at h2
  rcases List.mem_append.mp h2 with h2 | h2
  · simp only [List.mem_cons, List.not_mem_nil, or_false] at h2
    tauto
  · split at h2
    · next hs =>
        simp only [List.mem_cons] at h2
        rcases h2 with h2 | h2 | h2
        · exact Or.inr (Or.inr (Or.inl ⟨hs, Or.inl h2⟩))
        · exact Or.inr (Or.inr (Or.inl ⟨hs, Or.inr h2⟩))
        · cases setup with
          | fail => simp at h2
          | ok => exact Or.inr (Or.inr (Or.inr (Or.inr (List.mem_filter.mp h2).1)))
    · next hs =>
        simp only [List.mem_cons] at h2
        rcases h2 with h2 | h2 | h2
        · exact Or.inr (Or.inr (Or.inr (Or.inl ⟨hs, Or.inl h2⟩)))
        · exact Or.inr (Or.inr (Or.inr (Or.inl ⟨hs, Or.inr h2⟩)))
        · cases setup with
          | fail => simp at h2
          | ok => exact Or.inr (Or.inr (Or.inr (Or.inr (List.mem_filter.mp h2).1)))

/-! ## Claim theorems -/

/-- C4: feeding the parser the exact byte sequence FF FF 01 04 02 2B 01 followed
by the checksum byte yields Complete with id 0x01 and payload [0x02, 0x2B, 0x01];
the same sequence with the final byte changed by one (either direction) yields
BadChecksum; and the checksum byte 0xCC equals the frame checksum
`~(id + length + sum(payload)) mod 256`. -/
theorem C4_example_frame :
    runParser [0xFF, 0xFF, 0x01, 0x04, 0x02, 0x2B, 0x01, 0xCC]
      = Verdict.complete 0x01 [0x02, 0x2B, 0x01]
    ∧ runParser [0xFF, 0xFF, 0x01, 0x04, 0x02, 0x2B, 0x01, 0xCB] = Verdict.badChecksum
    ∧ runParser [0xFF, 0xFF, 0x01, 0x04, 0x02, 0x2B, 0x01, 0xCD] = Verdict.badChecksum
    ∧ 0xCC = checksum 0x01 0x04 [0x02, 0x2B, 0x01]
    ∧ 0xCC = 255 - ((0x01 + 0x04 + (0x02 + 0x2B + 0x01)) % 256) := by
  decide

/-- C5 counterexample: the claim that no Packet buffer is shared between two
transport instances is false in main: the SocketBus (CliServer.cpp line 160) and
the LinuxSerialBus (line 161) are constructed over the very same inbound Packet
(cmdPacket) and the very same outbound Packet (rspPacket). -/
theorem C5_buffers_shared_counterexample :
    socketBusBuffers.inBuf = serialBusBuffers.inBuf
    ∧ socketBusBuffers.outBuf = serialBusBuffers.outBuf := by
  decide

/-- C5 amended: the two transport instances share one pair of Packet buffers:
both use cmdPacketData as the inbound buffer and rspPacketData as the outbound
buffer; the inbound buffer is distinct from the outbound buffer. -/
theorem C5_shared_buffer_pair :
    socketBusBuffers = serialBusBuffers
    ∧ socketBusBuffers.inBuf = PacketBuf.cmdPacketData
    ∧ socketBusBuffers.outBuf = PacketBuf.rspPacketData
    ∧ socketBusBuffers.inBuf ≠ socketBusBuffers.outBuf := by
  decide

/-- C1: in every iteration of the event loop, handlePacket is invoked if and
only if the processByte call of that same iteration returned Packet::Error::NONE
(in which case the iteration performs exactly processByte followed by
handlePacket); the poll-failure iteration never dispatches.  A handler is thus
never invoked for a frame that processByte did not signal complete. -/
theorem C1_dispatch_iff_complete (rev : Nat) (pb : PacketError) :
    (Action.handlePacket ∈ (loopStep (WakeInput.wake rev pb)).1 ↔
      ((loopStep (WakeInput.wake rev pb)).1 = [Action.processByte, Action.handlePacket]
        ∧ pb = PacketError.NONE))
    ∧ Action.handlePacket ∉ (loopStep WakeInput.pollFail).1 := by
  refine ⟨?_, by simp [loopStep]⟩
  simp only [loopStep]
  split
  · simp
  · split
    · simp
    · split
      · simp
      · cases pb <;> simp

/-- C1 witness: the characterization instantiated at a POLLIN wake whose
processByte returned NONE. -/
theorem C1_dispatch_iff_complete_witness :
    (Action.handlePacket ∈ (loopStep (WakeInput.wake 1 PacketError.NONE)).1 ↔
      ((loopStep (WakeInput.wake 1 PacketError.NONE)).1
          = [Action.processByte, Action.handlePacket]
        ∧ PacketError.NONE = PacketError.NONE))
    ∧ Action.handlePacket ∉ (loopStep WakeInput.pollFail).1 :=
  C1_dispatch_iff_complete 1 PacketError.NONE

/-- C2: on a wake that reaches the processByte call (POLLIN set, POLLRDHUP
clear) and whose processByte result is not NONE, the loop neither dispatches
nor exits; a NOT_DONE result produces no log at all, and any other (framing
error) result is logged but the loop still continues. -/
theorem C2_noncomplete_continues (rev : Nat) (pb : PacketError)
    (h0 : rev ≠ 0) (hr : rev &&& POLLRDHUP = 0) (hi : rev &&& POLLIN ≠ 0)
    (hn : pb ≠ PacketError.NONE) :
    (loopStep (WakeInput.wake rev pb)).2 = false
    ∧ Action.handlePacket ∉ (loopStep (WakeInput.wake rev pb)).1
    ∧ (pb = PacketError.NOT_DONE →
        (loopStep (WakeInput.wake rev pb)).1 = [Action.processByte])
    ∧ (pb ≠ PacketError.NOT_DONE →
        (loopStep (WakeInput.wake rev pb)).1
          = [Action.processByte, Action.logE (LogMsg.processError pb)]) := by
  simp only [loopStep]
  rw [if_neg h0, if_neg (not_not_intro hr), if_neg hi]
  cases pb with
  | NONE => exact absurd rfl hn
  | NOT_DONE => exact ⟨rfl, by simp, fun _ => rfl, fun hh => absurd rfl hh⟩
  | CHECKSUM_ERROR => exact ⟨rfl, by simp, fun hh => absurd hh (by decide), fun _ => rfl⟩
  | TOO_MUCH_DATA => exact ⟨rfl, by simp, fun hh => absurd hh (by decide), fun _ => rfl⟩

/-- C2 witness: instantiated at a POLLIN wake whose processByte returned a
framing (checksum) error: the loop logs it and continues without dispatching. -/
theorem C2_noncomplete_continues_witness :
    (loopStep (WakeInput.wake 1 PacketError.CHECKSUM_ERROR)).2 = false
    ∧ Action.handlePacket ∉ (loopStep (WakeInput.wake 1 PacketError.CHECKSUM_ERROR)).1
    ∧ (PacketError.CHECKSUM_ERROR = PacketError.NOT_DONE →
        (loopStep (WakeInput.wake 1 PacketError.CHECKSUM_ERROR)).1 = [Action.processByte])
    ∧ (PacketError.CHECKSUM_ERROR ≠ PacketError.NOT_DONE →
        (loopStep (WakeInput.wake 1 PacketError.CHECKSUM_ERROR)).1
          = [Action.processByte,
             Action.logE (LogMsg.processError PacketError.CHECKSUM_ERROR)]) :=
  C2_noncomplete_continues 1 PacketError.CHECKSUM_ERROR (by decide) (by decide)
    (by decide) (by decide)

/-- C3 counterexample: a descriptor error reported by poll without POLLRDHUP
and without POLLIN — revents = POLLERR (0x0008), which poll reports without it
being requested — does NOT make the loop exit: the iteration at CliServer.cpp
lines 205-208 logs an unexpected-revent error and continues.  This refutes the
claim that the loop exits cleanly for every poll result reporting a descriptor
error. -/
theorem C3_descriptor_error_continues_counterexample :
    (loopStep (WakeInput.wake POLLERR PacketError.NOT_DONE)).2 = false
    ∧ (loopStep (WakeInput.wake POLLERR PacketError.NOT_DONE)).1
        = [Action.logE (LogMsg.unexpectedRevent POLLERR)] := by
  decide

/-- C3 amended: when poll reports POLLRDHUP the loop logs the disconnect and
exits, and whenever the loop exits after a successful setup the process
terminates normally (exit status 0, never a crash); but a descriptor error
reported without POLLRDHUP and without POLLIN (such as POLLERR alone) is only
logged as an unexpected revent and the loop continues. -/
theorem C3_rdhup_exits_descriptor_error_continues (rev : Nat) (pb : PacketError) :
    (rev &&& POLLRDHUP ≠ 0 →
      loopStep (WakeInput.wake rev pb) = ([Action.logI LogMsg.remoteDisconnected], true))
    ∧ (rev ≠ 0 → rev &&& POLLRDHUP = 0 → rev &&& POLLIN = 0 →
      loopStep (WakeInput.wake rev pb) = ([Action.logE (LogMsg.unexpectedRevent rev)], false))
    ∧ (∀ fl ws, (runMain fl SetupResult.ok ws).2 = some 0
        ∨ (runMain fl SetupResult.ok ws).2 = none) := by
  refine ⟨?_, ?_, ?_⟩
  · intro h
    have h0 : rev ≠ 0 := by
      rintro rfl
      simp [Nat.zero_and] at h
    simp only [loopStep]
    rw [if_neg h0, if_pos h]
  · intro h0 hr hi
    simp only [loopStep]
    rw [if_neg h0, if_neg (not_not_intro hr), if_pos hi]
  · intro fl ws
    rw [runMain_snd]
    by_cases hx : (runLoop ws).2 = true
    · exact Or.inl (by simp [hx])
    · exact Or.inr (by simp [hx])

/-- C3 witness: a wake whose revents is exactly POLLRDHUP makes the loop log
the disconnect and exit. -/
theorem C3_rdhup_exits_witness :
    loopStep (WakeInput.wake POLLRDHUP PacketError.NOT_DONE)
      = ([Action.logI LogMsg.remoteDisconnected], true) :=
  (C3_rdhup_exits_descriptor_error_continues POLLRDHUP PacketError.NOT_DONE).1 (by decide)

/-- C6: if transport setup fails (setupServer or serial open returns a non-NONE
error), the process terminates with exit status 1 before the event loop runs:
no processByte or handlePacket action ever occurs, and the action trace ends at
the single failed setup call, so the setup is never retried. -/
theorem C6_setup_failure_exit1 (fl : Flags) (ws : List WakeInput) :
    (runMain fl SetupResult.fail ws).2 = some 1
    ∧ Action.processByte ∉ (runMain fl SetupResult.fail ws).1
    ∧ Action.handlePacket ∉ (runMain fl SetupResult.fail ws).1
    ∧ (fl.serialPortStr = "" →
        (runMain fl SetupResult.fail ws).1
          = verboseActs fl ++ [Action.setDebugSocketBus true, Action.setDebugSerialBus true,
              Action.addHandlerSocket, Action.setupSocket fl.portStr])
    ∧ (fl.serialPortStr ≠ "" →
        (runMain fl SetupResult.fail ws).1
          = verboseActs fl ++ [Action.setDebugSocketBus true, Action.setDebugSerialBus true,
              Action.addHandlerSerial, Action.printfA LogMsg.openingSerial,
              Action.openSerial fl.serialPortStr 115200]) := by
  unfold runMain preActs verboseActs
  by_cases hs : fl.serialPortStr = "" <;> by_cases hv : fl.verbose <;>
    simp [hs, hv]

/-- C6 witness: instantiated at a socket-mode run with a failed setup. -/
theorem C6_setup_failure_exit1_witness :
    (runMain ⟨false, false, "1234", ""⟩ SetupResult.fail []).2 = some 1
    ∧ (runMain ⟨false, false, "1234", ""⟩ SetupResult.fail []).1
        = verboseActs ⟨false, false, "1234", ""⟩
            ++ [Action.setDebugSocketBus true, Action.setDebugSerialBus true,
                Action.addHandlerSocket, Action.setupSocket "1234"] :=
  ⟨(C6_setup_failure_exit1 ⟨false, false, "1234", ""⟩ []).1,
   (C6_setup_failure_exit1 ⟨false, false, "1234", ""⟩ []).2.2.2.1 rfl⟩

/-- C7: when poll returns a negative value the loop iteration logs the failure
and breaks out of the loop; after any run whose final wake is the poll failure
(all earlier wakes staying in the loop), the process terminates with exit
status 0 — normal termination, with the failure logged, and the wait is never
retried after the failure. -/
theorem C7_pollfail_logged_clean_exit (fl : Flags) (ws : List WakeInput)
    (h : ∀ u ∈ ws, (loopStep u).2 = false) :
    loopStep WakeInput.pollFail = ([Action.logE LogMsg.pollFailed], true)
    ∧ (runMain fl SetupResult.ok (ws ++ [WakeInput.pollFail])).2 = some 0
    ∧ Action.logE LogMsg.pollFailed
        ∈ (runMain fl SetupResult.ok (ws ++ [WakeInput.pollFail])).1 := by
  have hrl := runLoop_nonexit_append ws WakeInput.pollFail h
  refine ⟨rfl, ?_, ?_⟩
  · rw [runMain_snd]
    simp [hrl, loopStep]
  · have hmem : Action.logE LogMsg.pollFailed ∈ (runLoop (ws ++ [WakeInput.pollFail])).1 := by
      rw [hrl]
      simp [loopStep]
    have hlp : Action.logE LogMsg.pollFailed
        ∈ (loopPhase fl (ws ++ [WakeInput.pollFail])).1 := by
      unfold loopPhase
      split
      · exact List.mem_append.mpr (Or.inl hmem)
      · exact hmem
    unfold runMain
    split
    · simp [List.mem_append, hlp]
    · simp [List.mem_append, hlp]

/-- C7 witness: a run whose only wake is the poll failure terminates with
status 0 and the failure logged. -/
theorem C7_pollfail_logged_clean_exit_witness :
    loopStep WakeInput.pollFail = ([Action.logE LogMsg.pollFailed], true)
    ∧ (runMain ⟨false, false, "1234", ""⟩ SetupResult.ok
        ([] ++ [WakeInput.pollFail])).2 = some 0
    ∧ Action.logE LogMsg.pollFailed
        ∈ (runMain ⟨false, false, "1234", ""⟩ SetupResult.ok
            ([] ++ [WakeInput.pollFail])).1 :=
  C7_pollfail_logged_clean_exit ⟨false, false, "1234", ""⟩ []
    (fun u hu => absurd hu (List.not_mem_nil u))

/-- C8 counterexample: a concrete exit path — socket mode, successful setup,
one wake on which poll fails, so the loop breaks and the process terminates
with status 0 — contains zero close actions, not exactly one: main never calls
close on the descriptor on any path (it reaches exit(0) or exit(1) directly). -/
theorem C8_no_close_counterexample :
    (runMain ⟨false, false, "1234", ""⟩ SetupResult.ok [WakeInput.pollFail]).2 = some 0
    ∧ ((runMain ⟨false, false, "1234", ""⟩ SetupResult.ok
        [WakeInput.pollFail]).1.count Action.closeFd) = 0 := by
  decide

/-- C8 amended: main never explicitly closes the transport descriptor on any
path; in every run — any flags, any setup outcome, any wake trace — no close
action appears in the trace, the descriptor being released only by process
termination itself. -/
theorem C8_descriptor_never_closed (fl : Flags) (setup : SetupResult)
    (ws : List WakeInput) :
    Action.closeFd ∉ (runMain fl setup ws).1 := by
  intro h
  rcases @mem_runMain_nonlog_cases Action.closeFd rfl fl setup ws h with
    h | h | ⟨_, h | h⟩ | ⟨_, h | h⟩ | h
  · exact Action.noConfusion h
  · exact Action.noConfusion h
  · exact Action.noConfusion h
  · exact Action.noConfusion h
  · exact Action.noConfusion h
  · exact Action.noConfusion h
  · exact closeFd_not_mem_runLoop ws h

/-- C8 amended witness: no close action in a concrete terminating run. -/
theorem C8_descriptor_never_closed_witness :
    Action.closeFd ∉ (runMain ⟨false, false, "1234", ""⟩ SetupResult.ok
      [WakeInput.pollFail]).1 :=
  C8_descriptor_never_closed ⟨false, false, "1234", ""⟩ SetupResult.ok
    [WakeInput.pollFail]

/-- C9: the debug and verbose command-line flags are purely observational: two
runs of main that differ only in those flags produce identical non-logging
action traces (same setDebug calls, handler registrations, setup calls,
processByte and handlePacket decisions) and identical exit status, for every
setup outcome and wake trace.  The transport debug mode itself is modelled from
the spec as affecting only hex-dump logging (setDebugMode has no behavioral
effect), and main enables it unconditionally on both buses regardless of the
flags (CliServer.cpp lines 163-164). -/
theorem C9_flags_observational (d1 v1 d2 v2 : Bool) (port serial : String)
    (setup : SetupResult) (ws : List WakeInput) :
    nonLog (runMain ⟨d1, v1, port, serial⟩ setup ws).1
      = nonLog (runMain ⟨d2, v2, port, serial⟩ setup ws).1
    ∧ (runMain ⟨d1, v1, port, serial⟩ setup ws).2
      = (runMain ⟨d2, v2, port, serial⟩ setup ws).2 := by
  constructor
  · rw [nonLog_runMain, nonLog_runMain]
  · rw [runMain_snd, runMain_snd]

/-- C9 witness: instantiated with debug and verbose both off against both on. -/
theorem C9_flags_observational_witness :
    nonLog (runMain ⟨false, false, "1234", ""⟩ SetupResult.ok [WakeInput.pollFail]).1
      = nonLog (runMain ⟨true, true, "1234", ""⟩ SetupResult.ok [WakeInput.pollFail]).1
    ∧ (runMain ⟨false, false, "1234", ""⟩ SetupResult.ok [WakeInput.pollFail]).2
      = (runMain ⟨true, true, "1234", ""⟩ SetupResult.ok [WakeInput.pollFail]).2 :=
  C9_flags_observational false false true true "1234" "" SetupResult.ok
    [WakeInput.pollFail]

/-- C10: the optstring passed to getopt_long is the literal "dhv", so exactly
d, h and v are accepted as short options; -p and -s are rejected as
unrecognized, printing usage and returning 1, even though --port and --serial
work as long options; the full short-option string "dhp:s:v" is computed from
g_long_option but never used (it differs from the passed literal); and when
serialPortStr is empty the program sets up the socket server on the given
port, otherwise it opens the serial device at the fixed baud rate 115200. -/
theorem C10_cli_short_options :
    computeShortOpts gLongOption = "dhp:s:v"
    ∧ passedShortOpts = "dhv"
    ∧ passedShortOpts ≠ computeShortOpts gLongOption
    ∧ (∀ dp setup ws,
        program dp ["-p", "1234"] setup ws = ([Action.logI LogMsg.usageText], some 1))
    ∧ (∀ dp setup ws,
        program dp ["-s", "/dev/ttyUSB0"] setup ws
          = ([Action.logI LogMsg.usageText], some 1))
    ∧ (∀ dp ws, Action.setupSocket "1234"
          ∈ (program dp ["--port", "1234"] SetupResult.ok ws).1)
    ∧ (∀ dp ws, Action.openSerial "/dev/ttyUSB0" 115200
          ∈ (program dp ["--serial", "/dev/ttyUSB0"] SetupResult.ok ws).1)
    ∧ (∀ fl ws, fl.serialPortStr = "" →
        Action.setupSocket fl.portStr ∈ (runMain fl SetupResult.ok ws).1
        ∧ ∀ d b, Action.openSerial d b ∉ (runMain fl SetupResult.ok ws).1)
    ∧ (∀ fl ws, fl.serialPortStr ≠ "" →
        Action.openSerial fl.serialPortStr 115200 ∈ (runMain fl SetupResult.ok ws).1
        ∧ ∀ p, Action.setupSocket p ∉ (runMain fl SetupResult.ok ws).1) := by
  refine ⟨by decide, rfl, by decide, fun dp setup ws => rfl, fun dp setup ws => rfl,
    ?_, ?_, ?_, ?_⟩
  · intro dp ws
    show Action.setupSocket "1234" ∈
      Action.setDebugSocketBus true :: Action.setDebugSerialBus true ::
        Action.addHandlerSocket :: Action.setupSocket "1234" ::
          (loopPhase ⟨false, false, "1234", ""⟩ ws).1
    simp
  · intro dp ws
    show Action.openSerial "/dev/ttyUSB0" 115200 ∈
      Action.setDebugSocketBus true :: Action.setDebugSerialBus true ::
        Action.addHandlerSerial :: Action.printfA LogMsg.openingSerial ::
          Action.openSerial "/dev/ttyUSB0" 115200 :: Action.printfA LogMsg.serialOpened ::
            (loopPhase ⟨false, false, dp, "/dev/ttyUSB0"⟩ ws).1
    simp
  · intro fl ws hs
    constructor
    · unfold runMain
      rw [if_pos hs]
      simp [preActs, List.mem_append]
    · intro d b hmem
      rcases @mem_runMain_nonlog_cases (Action.openSerial d b) rfl fl SetupResult.ok ws
          hmem with h | h | ⟨_, h | h⟩ | ⟨hs2, _⟩ | h
      · exact Action.noConfusion h
      · exact Action.noConfusion h
      · exact Action.noConfusion h
      · exact Action.noConfusion h
      · exact hs2 hs
      · exact Bool.noConfusion (mem_runLoop_loopAct h)
  · intro fl ws hs
    constructor
    · unfold runMain
      rw [if_neg hs]
      simp [preActs, List.mem_append]
    · intro p hmem
      rcases @mem_runMain_nonlog_cases (Action.setupSocket p) rfl fl SetupResult.ok ws
          hmem with h | h | ⟨hs2, _⟩ | ⟨_, h | h⟩ | h
      · exact Action.noConfusion h
      · exact Action.noConfusion h
      · exact hs hs2
      · exact Action.noConfusion h
      · exact Action.noConfusion h
      · exact Bool.noConfusion (mem_runLoop_loopAct h)

/-- C10 witness: the socket-selection conjunct instantiated at a concrete run
with an empty serial port string. -/
theorem C10_cli_short_options_witness :
    Action.setupSocket "1234"
      ∈ (runMain ⟨false, false, "1234", ""⟩ SetupResult.ok []).1
    ∧ ∀ d b, Action.openSerial d b
      ∉ (runMain ⟨false, false, "1234", ""⟩ SetupResult.ok []).1 :=
  C10_cli_short_options.2.2.2.2.2.2.2.1 ⟨false, false, "1234", ""⟩ [] rfl

end CliServer
